import Mathlib

/-!
# Verification of the MTP transaction engine (`mtp/device_direct.go`)

This file gives a shallow embedding of the MTP-over-USB transaction engine of
the repository: the container codec (`sendReq`, `decodeRep`), packet
reassembly (`bulkRead`), chunked data-out (`bulkWrite`), the per-transaction
state machine (`runTransaction` / `RunTransaction`) and the robust session
establishment (`Configure`).

Modelling conventions:
* Bytes are `Nat`s below 256; machine integers are `Nat` with explicit
  truncation where the Go code casts (the little-endian serializers truncate
  to the field width by construction).
* The USB transport is modelled by an oracle: a list of scripted results for
  bulk transfers on the fetch endpoint, consumed in order.  An exhausted
  script behaves like a device that never answers, i.e. a transport timeout
  (a `usb.Error` in the source).  Bulk transfers on the send endpoint are
  assumed to succeed and are recorded as a trace of the byte strings handed
  to the transport, so theorems can inspect exactly what was put on the wire.
* Sinks (`io.Writer` destinations) never fail; the bytes written to the
  caller-supplied sink are returned.  The `NullWriter` used for unexpected
  data discards its input, so nothing is recorded for it.
-/

set_option linter.unusedVariables false

namespace Mtp

/-- A byte string: a list of naturals, each intended to be `< 256`. -/
abbrev Bytes := List Nat

/-- `usbHdrLen`: size of `usbBulkHeader` on the wire (12 bytes). -/
def usbHdrLen : Nat := 12

/-- `USB_CONTAINER_COMMAND` container type. -/
def USB_CONTAINER_COMMAND : Nat := 1
/-- `USB_CONTAINER_DATA` container type. -/
def USB_CONTAINER_DATA : Nat := 2
/-- `USB_CONTAINER_RESPONSE` container type. -/
def USB_CONTAINER_RESPONSE : Nat := 3

/-- Modelled from the spec: the response / operation code constants are
defined outside `src/` (in the generated constants file of the repository).
`RC_OK` is the generic "OK" response code of MTP/PTP. -/
def RC_OK : Nat := 0x2001

/-- Modelled from the spec: the "session already opened" response code. -/
def RC_SessionAlreadyOpened : Nat := 0x201E

/-- Modelled from the spec: the OpenSession operation code. -/
def OC_OpenSession : Nat := 0x1002

/-- Modelled from the spec: the CloseSession operation code. -/
def OC_CloseSession : Nat := 0x1003

/-- `usbBulkHeader`: the 12-byte wire-level prefix of every packet. -/
structure UsbBulkHeader where
  Length : Nat
  Typ : Nat
  Code : Nat
  TransactionID : Nat
deriving Repr, DecidableEq

/-- `Container`: the logical protocol unit (code, session id, transaction id,
up to five parameters). -/
structure Container where
  Code : Nat := 0
  SessionID : Nat := 0
  TransactionID : Nat := 0
  Param : List Nat := []
deriving Repr, DecidableEq

/-- Modelled from the spec: `sessionData` is defined outside `src/`; per the
spec it holds the device-assigned session id and the transaction counter
(which starts at 1 and is incremented after each transaction).  The counter
is modelled as an unbounded natural number. -/
structure SessionData where
  sid : Nat
  tid : Nat
deriving Repr, DecidableEq

/-- The state of a `DeviceDirect` that the transaction engine reads or
writes: whether the handle is open (`d.h != nil`), whether the interface is
claimed, the endpoint max packet sizes, the `rwBufSize` scratch buffer size,
the `SeparateHeader` option and the current session. -/
structure Dev where
  hOpen : Bool
  claimed : Bool := true
  fetchPacketSize : Nat
  sendPacketSize : Nat
  rwBufSize : Nat
  separateHeader : Bool := false
  session : Option SessionData
deriving Repr, DecidableEq

/-- The error taxonomy of the source: `SyncError` (protocol desync),
`RCError` (device-response error carrying the response code), `usb.Error`
(transport fault) and plain `fmt.Errorf` / `binary.Read` errors. -/
inductive Err where
  | sync (msg : String)
  | rc (code : Nat)
  | usb (msg : String)
  | generic (msg : String)
deriving Repr, DecidableEq

/-- One scripted result of a bulk transfer on the fetch endpoint: either the
bytes the device delivered, or a transport error. -/
inductive UsbResult where
  | ok (data : Bytes)
  | err (msg : String)
deriving Repr, DecidableEq

/-! ## Little-endian serialization (`binary.Write` / `binary.Read`) -/

/-- Little-endian bytes of a `uint16` (truncates wider values). -/
def u16le (x : Nat) : Bytes := [x % 256, x / 256 % 256]

/-- Little-endian bytes of a `uint32` (truncates wider values). -/
def u32le (x : Nat) : Bytes :=
  [x % 256, x / 256 % 256, x / 65536 % 256, x / 16777216 % 256]

/-- Decode two little-endian bytes. -/
def u16de (b0 b1 : Nat) : Nat := b0 + 256 * b1

/-- Decode four little-endian bytes. -/
def u32de (b0 b1 b2 b3 : Nat) : Nat := b0 + 256 * (b1 + 256 * (b2 + 256 * b3))

/-- `binary.Write` of a `usbBulkHeader`: length, type, code, transaction id,
all little-endian. -/
def encodeHeader (h : UsbBulkHeader) : Bytes :=
  u32le h.Length ++ u16le h.Typ ++ u16le h.Code ++ u32le h.TransactionID

/-- `binary.Read` of a `usbBulkHeader` from a byte string: requires at least
12 bytes, returns the header and the remaining bytes. -/
def parseHeader : Bytes → Option (UsbBulkHeader × Bytes)
  | b0 :: b1 :: b2 :: b3 :: b4 :: b5 :: b6 :: b7 :: b8 :: b9 :: b10 :: b11 :: rest =>
    some (⟨u32de b0 b1 b2 b3, u16de b4 b5, u16de b6 b7, u32de b8 b9 b10 b11⟩, rest)
  | _ => none

/-- `binary.Read` into a freshly zeroed header, as in the reused-final-packet
path of `runTransaction`: on a short buffer the header stays zero. -/
def parseHeaderPrefix (bs : Bytes) : UsbBulkHeader :=
  match parseHeader bs with
  | some (h, _) => h
  | none => ⟨0, 0, 0, 0⟩

/-- The bytes `sendReq` puts on the wire: a COMMAND header whose length field
is `usbHdrLen + 4 * len(Param)` (as a `uint32`), followed by the parameters
little-endian. -/
def sendReqBytes (req : Container) : Bytes :=
  encodeHeader
    ⟨usbHdrLen + 4 * req.Param.length, USB_CONTAINER_COMMAND, req.Code,
      req.TransactionID⟩ ++ (req.Param.map u32le).flatten

/-- The parameter-reading loop of `decodeRep`: reads `n` 32-bit words from
successive 4-byte offsets of `rest` (`byteOrder.Uint32(rest[4*i:])`). -/
def readParams : Bytes → Nat → List Nat
  | _, 0 => []
  | bs, n + 1 =>
    u32de (bs.getD 0 0) (bs.getD 1 0) (bs.getD 2 0) (bs.getD 3 0) ::
      readParams (bs.drop 4) n

/-- `decodeRep`: requires a RESPONSE-typed header (else `SyncError`); fills
`rep.Code` and `rep.TransactionID`; fails with a plain error if the header
declares more payload than is available; reads the parameters; and returns
`RCError` when the code is not `RC_OK`. -/
def decodeRep (h : UsbBulkHeader) (rest : Bytes) (rep : Container) :
    Container × Option Err :=
  if h.Typ ≠ USB_CONTAINER_RESPONSE then
    (rep, some (.sync "got unexpected type in response, want CONTAINER_RESPONSE"))
  else
    let rep1 := { rep with Code := h.Code, TransactionID := h.TransactionID }
    if usbHdrLen + rest.length < h.Length then
      (rep1, some (.generic "header specified more bytes than have"))
    else
      let nParam := (h.Length - usbHdrLen) / 4
      let rep2 := { rep1 with Param := rep1.Param ++ readParams rest nParam }
      if rep2.Code ≠ RC_OK then (rep2, some (.rc rep2.Code)) else (rep2, none)

/-! ## Transport-facing reads -/

/-- `fetchPacket`: one bulk transfer on the fetch endpoint into a buffer of
`fetchPacketSize` bytes, then `binary.Read` of the header; returns the header
and the rest of the packet.  A transfer failure is a transport error; fewer
than 12 bytes make `binary.Read` fail with a plain (non-fatal) error. -/
def fetchPacket (cfg : Dev) :
    List UsbResult → Except Err (UsbBulkHeader × Bytes) × List UsbResult
  | [] => (.error (.usb "timeout"), [])
  | .err e :: rs => (.error (.usb e), rs)
  | .ok data :: rs =>
    match parseHeader (data.take cfg.fetchPacketSize) with
    | none => (.error (.generic "unexpected EOF"), rs)
    | some hr => (.ok hr, rs)

/-- The read loop of `bulkRead`: transfers into an `rwBufSize` scratch buffer,
appending to the sink, until a read returns fewer bytes than the buffer
(a short read) or fails.  Returns the bytes written, the size of the last
read (`0` when a transfer failed, matching the zero count returned by a
failed `BulkTransfer`), the error, and the unconsumed script. -/
def bulkReadLoop (cfg : Dev) :
    List UsbResult → Bytes × Nat × Option Err × List UsbResult
  | [] => ([], 0, some (.usb "timeout"), [])
  | .err e :: rs => ([], 0, some (.usb e), rs)
  | .ok data :: rs =>
    let chunk := data.take cfg.rwBufSize
    if chunk.length < cfg.rwBufSize then (chunk, chunk.length, none, rs)
    else
      let r := bulkReadLoop cfg rs
      (chunk ++ r.1, r.2)

/-- `bulkRead`: the loop above, then — whenever the last read length is an
exact multiple of the fetch endpoint's max packet size — one additional
transfer whose bytes are returned as `lastPacket` for the caller to inspect
(a null acknowledgement on most controllers, a full RESPONSE packet on
Linux + XHCI).  Result: (bytes written, lastPacket, error, rest of script). -/
def bulkRead (cfg : Dev) (reads : List UsbResult) :
    Bytes × Bytes × Option Err × List UsbResult :=
  let r := bulkReadLoop cfg reads
  let w := r.1
  let lastRead := r.2.1
  if lastRead % cfg.fetchPacketSize = 0 then
    match r.2.2.2 with
    | [] => (w, [], some (.usb "timeout"), [])
    | .err e :: rs => (w, [], some (.usb e), rs)
    | .ok data :: rs => (w, data.take cfg.rwBufSize, none, rs)
  else (w, [], r.2.2.1, r.2.2.2)

/-! ## Data-out (`bulkWrite`) -/

/-- The chunking loop of `bulkWrite`: reads up to `rwBufSize` bytes (never
more than the remaining `size`) from the source and transfers them, until
`size` is exhausted or the source runs dry (an `io.Reader` error).  Returns
the trace of transfers and the total byte count.  The source is modelled as
a byte string served by a full reader. -/
def bulkWriteLoop (cfg : Dev) (src : Bytes) (size : Nat) :
    List Bytes × Nat × Option Err :=
  if size = 0 then ([], 0, none)
  else
    let toread := min cfg.rwBufSize size
    if h : src.length = 0 ∨ toread = 0 then ([], 0, some (.generic "EOF"))
    else
      let m := min toread src.length
      let r := bulkWriteLoop cfg (src.drop m) (size - m)
      (src.take m :: r.1, m + r.2.1, r.2.2)
termination_by src.length
decreasing_by
  simp only [List.length_drop]
  rcases Nat.eq_zero_or_pos src.length with h0 | h0
  · exact absurd (Or.inl h0) h
  · have ht : 0 < toread := by
      rcases Nat.eq_zero_or_pos toread with h1 | h1
      · exact absurd (Or.inr h1) h
      · exact h1
    omega

/-- `bulkWrite` with a (non-nil) DATA header: the header's length field is
`size + usbHdrLen` saturated at `0xFFFFFFFF`; the first transfer carries the
header — padded with payload up to one max packet unless `SeparateHeader` is
set; the remainder is chunked by the loop; finally, if the last chunk
transfer length is an exact multiple of the max packet size (including 0
when the loop never ran), an additional zero-length packet is transferred.
Returns the trace of transfers, the payload byte count and the error. -/
def bulkWrite (cfg : Dev) (src : Bytes) (size : Nat) (code tid : Nat) :
    List Bytes × Nat × Option Err :=
  let lengthField := if 0xFFFFFFFF < size + usbHdrLen then 0xFFFFFFFF
    else size + usbHdrLen
  let hdr : UsbBulkHeader := ⟨lengthField, USB_CONTAINER_DATA, code, tid⟩
  let packetLen := if cfg.separateHeader then usbHdrLen else cfg.sendPacketSize
  let cpSize := min (packetLen - usbHdrLen) size
  let firstPkt := encodeHeader hdr ++ src.take cpSize
  let r := bulkWriteLoop cfg (src.drop cpSize) (size - cpSize)
  let sends := firstPkt :: r.1
  let lastTransfer := ((r.1.getLast?).map List.length).getD 0
  (if lastTransfer % cfg.sendPacketSize = 0 then sends ++ [[]] else sends,
    cpSize + r.2.1, r.2.2)

/-! ## The per-call transaction state machine (`runTransaction`) -/

/-- What one `runTransaction` call produces besides the device state: the
(mutated) response container, the bytes handed to the caller's sink, the
trace of send-endpoint transfers, the error, and the unconsumed script. -/
structure BodyOut where
  rep : Container
  sinkWritten : Bytes
  sends : List Bytes
  err : Option Err
  reads : List UsbResult
deriving Repr, DecidableEq

/-- The tail of `runTransaction` (source lines 384–400): decode the response,
give the "unexpected data" desync error precedence, propagate decode errors,
check transaction-id correlation when a session is active, and finally copy
the request's session id onto the response. -/
def finishRT (sess : Option SessionData) (req rep0 : Container)
    (unexpected : Bool) (h : UsbBulkHeader) (rest : Bytes) :
    Container × Option Err :=
  let d := decodeRep h rest rep0
  if unexpected then (d.1, some (.sync "unexpected data for code"))
  else
    match d.2 with
    | some e => (d.1, some e)
    | none =>
      if sess.isSome ∧ d.1.TransactionID ≠ req.TransactionID then
        (d.1, some (.sync "transaction ID mismatch"))
      else ({ d.1 with SessionID := req.SessionID }, none)

/-- The body of `runTransaction` after the session ids have been assigned:
send the command, run the optional data-out phase, fetch the first packet;
if it is DATA-typed, sink it (to the `NullWriter` flagging unexpected data
when the caller supplied no sink), continue with `bulkRead` when the first
packet was full, then either reuse a non-empty final packet as the RESPONSE
packet or fetch one more packet (whose transfer error the source discards,
leaving a zeroed header for `decodeRep`); finally run `finishRT`. -/
def runTransBody (d : Dev) (req rep : Container) (hasDest : Bool)
    (src : Option Bytes) (writeSize : Nat) (reads : List UsbResult) :
    BodyOut :=
  let sends0 := [sendReqBytes req]
  let wr := match src with
    | none => ([], none)
    | some s =>
      let w := bulkWrite d s writeSize req.Code req.TransactionID
      (w.1, w.2.2)
  match wr.2 with
  | some e => ⟨rep, [], sends0 ++ wr.1, some e, reads⟩
  | none =>
    let sends := sends0 ++ wr.1
    match fetchPacket d reads with
    | (.error e, rs) => ⟨rep, [], sends, some e, rs⟩
    | (.ok (h, rest), rs) =>
      if h.Typ = USB_CONTAINER_DATA then
        let unexpected := !hasDest
        let w0 := if hasDest then rest else []
        let stage :=
          if rest.length + usbHdrLen = d.fetchPacketSize then
            let b := bulkRead d rs
            (w0 ++ (if hasDest then b.1 else []), b.2.1, b.2.2.1, b.2.2.2)
          else (w0, [], none, rs)
        let w1 := stage.1
        let finalPacket := stage.2.1
        match stage.2.2.1 with
        | some e => ⟨rep, w1, sends, some e, stage.2.2.2⟩
        | none =>
          let rs2 := stage.2.2.2
          if 0 < finalPacket.length then
            let f := finishRT d.session req rep unexpected
              (parseHeaderPrefix finalPacket) finalPacket
            ⟨f.1, w1, sends, f.2, rs2⟩
          else
            match fetchPacket d rs2 with
            | (.error _, rs3) =>
              let f := finishRT d.session req rep unexpected ⟨0, 0, 0, 0⟩ []
              ⟨f.1, w1, sends, f.2, rs3⟩
            | (.ok (h2, rest2), rs3) =>
              let f := finishRT d.session req rep unexpected h2 rest2
              ⟨f.1, w1, sends, f.2, rs3⟩
      else
        let f := finishRT d.session req rep false h rest
        ⟨f.1, [], sends, f.2, rs⟩

/-- Lines 310–314 of the source: when a session is active, stamp the request
with the session id and the current transaction counter, and advance the
counter.  Nothing later in `runTransaction` touches the session again. -/
def assignIds (d : Dev) (req : Container) : Dev × Container :=
  match d.session with
  | some s =>
    ({ d with session := some ⟨s.sid, s.tid + 1⟩ },
      { req with SessionID := s.sid, TransactionID := s.tid })
  | none => (d, req)

/-- Everything a `runTransaction` call produces. -/
structure RTOut where
  dev : Dev
  req : Container
  rep : Container
  sinkWritten : Bytes
  sends : List Bytes
  err : Option Err
  reads : List UsbResult
deriving Repr, DecidableEq

/-- `runTransaction`: assign session/transaction ids, then run the body. -/
def runTransaction (d : Dev) (req rep : Container) (hasDest : Bool)
    (src : Option Bytes) (writeSize : Nat) (reads : List UsbResult) : RTOut :=
  let a := assignIds d req
  let b := runTransBody a.1 a.2 rep hasDest src writeSize reads
  ⟨a.1, a.2, b.rep, b.sinkWritten, b.sends, b.err, b.reads⟩

/-- Externally visible side effects of the connection-management layer. -/
inductive Action where
  | reset
  | sleep
  | closeConn
  | openDev
deriving Repr, DecidableEq

/-- `Close`: a no-op on an already-closed connection; otherwise, if a session
is active, attempt a CloseSession transaction and reset the device when that
transaction fails; then release the interface and close the handle.  (As in
the source, the `session` field itself is left as it was.) -/
def Close_ (d : Dev) (reads : List UsbResult) :
    Dev × List UsbResult × List Action :=
  if ¬d.hOpen then (d, reads, [])
  else
    let step : Dev × List UsbResult × List Action :=
      match d.session with
      | none => (d, reads, [])
      | some _ =>
        let o := runTransaction d ⟨OC_CloseSession, 0, 0, []⟩ ⟨0, 0, 0, []⟩
          false none 0 reads
        match o.err with
        | some _ => (o.dev, o.reads, [Action.reset])
        | none => (o.dev, o.reads, [])
    ({ step.1 with hOpen := false }, step.2.1, step.2.2 ++ [Action.closeConn])

/-- Errors that make `RunTransaction` close the connection: `SyncError` and
`usb.Error` (the two type assertions in the source). -/
def isFatalErr : Option Err → Bool
  | some (Err.sync _) => true
  | some (Err.usb _) => true
  | _ => false

/-- Everything a `RunTransaction` call produces; `closed` records whether the
wrapper tore the connection down, `actions` the teardown's side effects. -/
structure RunOut where
  dev : Dev
  req : Container
  rep : Container
  sinkWritten : Bytes
  sends : List Bytes
  err : Option Err
  reads : List UsbResult
  closed : Bool
  actions : List Action
deriving Repr, DecidableEq

/-- `RunTransaction`: guard against a closed device, run `runTransaction`,
and on a `SyncError` or `usb.Error` close the connection before returning. -/
def RunTransaction (d : Dev) (req rep : Container) (hasDest : Bool)
    (src : Option Bytes) (writeSize : Nat) (reads : List UsbResult) :
    RunOut :=
  if ¬d.hOpen then
    ⟨d, req, rep, [], [], some (.generic "device is not open"), reads,
      false, []⟩
  else
    let o := runTransaction d req rep hasDest src writeSize reads
    if isFatalErr o.err then
      let c := Close_ o.dev o.reads
      ⟨c.1, o.req, o.rep, o.sinkWritten, o.sends, o.err, c.2.1, true, c.2.2⟩
    else
      ⟨o.dev, o.req, o.rep, o.sinkWritten, o.sends, o.err, o.reads,
        false, []⟩

/-! ## Session management (`Configure`) -/

/-- Result of a session-management operation. -/
structure OpOut where
  dev : Dev
  reads : List UsbResult
  actions : List Action
  err : Option Err
deriving Repr, DecidableEq

/-- Modelled from the spec: `OpenSession` is defined outside `src/`.  Per the
spec it runs an OpenSession transaction carrying a host-chosen session id
and, on success, installs the Session with its transaction counter starting
at 1. -/
def OpenSession (d : Dev) (reads : List UsbResult) : OpOut :=
  let o := RunTransaction d ⟨OC_OpenSession, 0, 0, [1]⟩ ⟨0, 0, 0, []⟩
    false none 0 reads
  match o.err with
  | some e => ⟨o.dev, o.reads, o.actions, some e⟩
  | none => ⟨{ o.dev with session := some ⟨1, 1⟩ }, o.reads, o.actions, none⟩

/-- Modelled from the spec: `CloseSession` is defined outside `src/`.  It
runs a CloseSession transaction (which works even without a valid
transaction id) and destroys the Session. -/
def CloseSession (d : Dev) (reads : List UsbResult) : OpOut :=
  let o := RunTransaction d ⟨OC_CloseSession, 0, 0, []⟩ ⟨0, 0, 0, []⟩
    false none 0 reads
  ⟨{ o.dev with session := none }, o.reads, o.actions, o.err⟩

/-- Helper for `strings.Contains`: does `sub` occur inside the list? -/
def goContainsAux (sub : List Char) : List Char → Bool
  | [] => sub.isPrefixOf []
  | c :: rest => sub.isPrefixOf (c :: rest) || goContainsAux sub rest

/-- `strings.Contains(s, sub)`. -/
def goContains (s sub : String) : Bool := goContainsAux sub.toList s.toList

/-- The collaborators `Open` consults, all external to the engine: whether
the libusb `dev.Open` call and the `ClaimInterface` call succeed, the
interface descriptor's string index, the MTP-extension field of the device
info (`GetDeviceInfo` is defined outside `src/`; the spec lists the
device-info/descriptor collaborator supplying this marker string among the
consumed interfaces), and the result of `GetStringDescriptorASCII` on the
interface string. -/
structure OpenEnv where
  openOk : Bool
  claimOk : Bool
  ifaceStringIndex : Nat
  mtpExtension : String
  ifaceStringOk : Bool
  ifaceString : String
deriving Repr, DecidableEq

/-- `Open` (source lines 109–155): fails if the handle is already open,
opens the handle, claims the interface (a claim failure is returned without
closing the handle, as in the source), then verifies the device speaks MTP:
when the interface descriptor has no string index, the device-info
MTP-extension field must contain the Microsoft marker; otherwise the
interface string is read (a descriptor-read failure is a transport error)
and must contain "MTP".  A failed MTP check closes the connection again. -/
def Open_ (env : OpenEnv) (d : Dev) (reads : List UsbResult) : OpOut :=
  if d.hOpen then ⟨d, reads, [], some (.generic "already open")⟩
  else if ¬env.openOk then
    ⟨d, reads, [Action.openDev], some (.generic "failed to open")⟩
  else
    let d1 := { d with hOpen := true }
    if ¬env.claimOk then
      ⟨d1, reads, [Action.openDev], some (.generic "failed to claim")⟩
    else
      let d2 := { d1 with claimed := true }
      if env.ifaceStringIndex = 0 then
        if goContains env.mtpExtension "icrosoft" then
          ⟨d2, reads, [Action.openDev], none⟩
        else
          let c := Close_ d2 reads
          ⟨c.1, c.2.1, Action.openDev :: c.2.2,
            some (.generic "mtp: no MTP extensions")⟩
      else
        if ¬env.ifaceStringOk then
          let c := Close_ d2 reads
          ⟨c.1, c.2.1, Action.openDev :: c.2.2,
            some (.usb "GetStringDescriptorASCII failed")⟩
        else if goContains env.ifaceString "MTP" then
          ⟨d2, reads, [Action.openDev], none⟩
        else
          let c := Close_ d2 reads
          ⟨c.1, c.2.1, Action.openDev :: c.2.2,
            some (.generic "has no MTP in interface string")⟩

/-- `Configure` (source lines 525–557): open the connection if needed
(propagating an `Open` failure); attempt OpenSession; on
`RCError(RC_SessionAlreadyOpened)` issue CloseSession and retry
OpenSession; if an error remains, reset the device, close, sleep one
second, reopen (failure reported as "opening after reset") and retry
OpenSession once more (failure reported as "openSession after reset"). -/
def Configure (env : OpenEnv) (d0 : Dev) (reads : List UsbResult) : OpOut :=
  let o0 : OpOut :=
    if ¬d0.hOpen then Open_ env d0 reads else ⟨d0, reads, [], none⟩
  match o0.err with
  | some e => ⟨o0.dev, o0.reads, o0.actions, some e⟩
  | none =>
    let s1 := OpenSession o0.dev o0.reads
    let s2 : OpOut :=
      if s1.err = some (.rc RC_SessionAlreadyOpened) then
        let c := CloseSession s1.dev s1.reads
        let o2 := OpenSession c.dev c.reads
        ⟨o2.dev, o2.reads, c.actions ++ o2.actions, o2.err⟩
      else ⟨s1.dev, s1.reads, [], s1.err⟩
    match s2.err with
    | none => ⟨s2.dev, s2.reads, o0.actions ++ s1.actions ++ s2.actions,
        none⟩
    | some _ =>
      let aReset := if s2.dev.hOpen then [Action.reset] else []
      let c := Close_ s2.dev s2.reads
      let o := Open_ env c.1 c.2.1
      let acts := o0.actions ++ s1.actions ++ s2.actions ++ aReset ++
        c.2.2 ++ [Action.sleep] ++ o.actions
      match o.err with
      | some _ => ⟨o.dev, o.reads, acts,
          some (.generic "opening after reset")⟩
      | none =>
        let s3 := OpenSession o.dev o.reads
        match s3.err with
        | some _ => ⟨s3.dev, s3.reads, acts ++ s3.actions,
            some (.generic "openSession after reset")⟩
        | none => ⟨s3.dev, s3.reads, acts ++ s3.actions, none⟩

/-- A standard device configuration for the scenario theorems: high-speed
bulk endpoints (512-byte max packet) and a 16 KiB scratch buffer (the
`rwBufSize` constant is defined outside `src/`; 16 KiB, a multiple of the
packet size, is the value the behavior in the source is written for). -/
def stdDev (sess : Option SessionData) : Dev :=
  ⟨true, true, 512, 512, 16384, false, sess⟩

/-- A well-formed RESPONSE packet with parameter words `ps`. -/
def respPkt (code tid : Nat) (ps : List Nat) : Bytes :=
  encodeHeader ⟨usbHdrLen + 4 * ps.length, USB_CONTAINER_RESPONSE, code, tid⟩
    ++ (ps.map u32le).flatten

/-- A well-formed DATA packet carrying `payload`. -/
def dataPkt (code tid : Nat) (payload : Bytes) : Bytes :=
  encodeHeader ⟨usbHdrLen + payload.length, USB_CONTAINER_DATA, code, tid⟩
    ++ payload

/-! ## Codec lemmas -/

theorem encodeHeader_length (h : UsbBulkHeader) :
    (encodeHeader h).length = 12 := by
  simp [encodeHeader, u32le, u16le]

theorem parseHeader_encode (h : UsbBulkHeader) (tail : Bytes)
    (h1 : h.Length < 4294967296) (h2 : h.Typ < 65536) (h3 : h.Code < 65536)
    (h4 : h.TransactionID < 4294967296) :
    parseHeader (encodeHeader h ++ tail) = some (h, tail) := by
  obtain ⟨L, T, C, I⟩ := h
  simp only [encodeHeader, u32le, u16le] at *
  simp only [List.cons_append, List.nil_append, parseHeader, u32de, u16de,
    Option.some.injEq, Prod.mk.injEq, UsbBulkHeader.mk.injEq]
  refine ⟨⟨?_, ?_, ?_, ?_⟩, trivial⟩ <;> omega

theorem flatten_u32le_length (ps : List Nat) :
    ((ps.map u32le).flatten).length = 4 * ps.length := by
  induction ps with
  | nil => simp
  | cons x xs ih => simp [u32le, ih]; omega

theorem readParams_flatten (ps : List Nat)
    (hb : ∀ x ∈ ps, x < 4294967296) :
    readParams ((ps.map u32le).flatten) ps.length = ps := by
  induction ps with
  | nil => simp [readParams]
  | cons x xs ih =>
    have hx : x < 4294967296 := hb x (List.mem_cons_self x xs)
    have hxs : ∀ y ∈ xs, y < 4294967296 := fun y hy => hb y (List.mem_cons_of_mem x hy)
    simp only [List.map_cons, List.flatten_cons, List.length_cons]
    simp only [u32le, List.cons_append, List.nil_append, readParams,
      List.getD_cons_zero, List.getD_cons_succ, List.drop_succ_cons,
      List.drop_zero, List.cons.injEq]
    exact ⟨by simp only [u32de]; omega, ih hxs⟩

theorem decodeRep_wf (code rtid : Nat) (ps : List Nat) (rep0 : Container)
    (hp : ∀ x ∈ ps, x < 4294967296) :
    decodeRep ⟨12 + 4 * ps.length, 3, code, rtid⟩ ((ps.map u32le).flatten)
        rep0 =
      (⟨code, rep0.SessionID, rtid, rep0.Param ++ ps⟩,
        if code ≠ RC_OK then some (.rc code) else none) := by
  have h4 : (12 + 4 * ps.length - 12) / 4 = ps.length := by omega
  have hrp := readParams_flatten ps hp
  unfold decodeRep
  rw [flatten_u32le_length]
  by_cases hc : code = RC_OK <;>
    simp [usbHdrLen, USB_CONTAINER_RESPONSE, h4, hrp, hc]

/-- Evaluation of `fetchPacket` on a scripted packet that fits in one
transfer and starts with a well-formed header. -/
theorem fetchPacket_wf (cfg : Dev) (h : UsbBulkHeader) (tail : Bytes)
    (rs : List UsbResult)
    (hfit : (encodeHeader h ++ tail).length ≤ cfg.fetchPacketSize)
    (h1 : h.Length < 4294967296) (h2 : h.Typ < 65536) (h3 : h.Code < 65536)
    (h4 : h.TransactionID < 4294967296) :
    fetchPacket cfg (.ok (encodeHeader h ++ tail) :: rs) =
      (.ok (h, tail), rs) := by
  simp only [fetchPacket, List.take_of_length_le hfit,
    parseHeader_encode h tail h1 h2 h3 h4]

theorem stdDev_session (s : Option SessionData) : (stdDev s).session = s := rfl

theorem stdDev_fetchPacketSize (s : Option SessionData) :
    (stdDev s).fetchPacketSize = 512 := rfl

theorem stdDev_sendPacketSize (s : Option SessionData) :
    (stdDev s).sendPacketSize = 512 := rfl

theorem stdDev_rwBufSize (s : Option SessionData) :
    (stdDev s).rwBufSize = 16384 := rfl

theorem stdDev_hOpen (s : Option SessionData) : (stdDev s).hOpen = true := rfl

theorem stdDev_separateHeader (s : Option SessionData) :
    (stdDev s).separateHeader = false := rfl

theorem stdDev_update_session (s s2 : Option SessionData) :
    ({ stdDev s with session := s2 } : Dev) = stdDev s2 := rfl

set_option maxHeartbeats 1000000 in
/-- Evaluation of `runTransaction` on the basic scenario: an active session,
no data phase in either direction, and a single well-formed RESPONSE packet
on the fetch endpoint. -/
theorem runTransaction_response (sid t code rtid : Nat) (ps : List Nat)
    (req0 : Container) (hasDest : Bool) (tail : List UsbResult)
    (hk : ps.length ≤ 5) (hcode : code < 65536) (hrt : rtid < 4294967296)
    (hp : ∀ x ∈ ps, x < 4294967296) :
    runTransaction (stdDev (some ⟨sid, t⟩)) req0 ⟨0, 0, 0, []⟩ hasDest none 0
        (.ok (respPkt code rtid ps) :: tail) =
      ⟨stdDev (some ⟨sid, t + 1⟩),
        { req0 with SessionID := sid, TransactionID := t },
        (if code ≠ RC_OK then (⟨code, 0, rtid, ps⟩ : Container)
          else if rtid ≠ t then ⟨code, 0, rtid, ps⟩ else ⟨code, sid, rtid, ps⟩),
        [],
        [sendReqBytes { req0 with SessionID := sid, TransactionID := t }],
        (if code ≠ RC_OK then some (.rc code)
          else if rtid ≠ t then some (.sync "transaction ID mismatch")
          else none),
        tail⟩ := by
  have hfit : (encodeHeader ⟨usbHdrLen + 4 * ps.length,
      USB_CONTAINER_RESPONSE, code, rtid⟩ ++ (ps.map u32le).flatten).length
      ≤ (stdDev (some ⟨sid, t + 1⟩)).fetchPacketSize := by
    rw [List.length_append, encodeHeader_length, flatten_u32le_length,
      stdDev_fetchPacketSize]
    omega
  have hfetch := fetchPacket_wf (stdDev (some ⟨sid, t + 1⟩))
    ⟨usbHdrLen + 4 * ps.length, USB_CONTAINER_RESPONSE, code, rtid⟩
    ((ps.map u32le).flatten) tail hfit
    (by simp only [usbHdrLen]; omega)
    (by simp [USB_CONTAINER_RESPONSE]) hcode hrt
  have hdec := decodeRep_wf code rtid ps ⟨0, 0, 0, []⟩ hp
  simp only [runTransaction, assignIds, stdDev_session,
    stdDev_update_session, runTransBody, respPkt, hfetch]
  simp only [usbHdrLen, USB_CONTAINER_RESPONSE, USB_CONTAINER_DATA,
    finishRT, hdec, stdDev_session]
  by_cases hc : code = RC_OK
  · by_cases hr : rtid = t <;>
      simp [hc, hr, RTOut.mk.injEq, Container.mk.injEq]
  · simp [hc, RTOut.mk.injEq, Container.mk.injEq]

/-- Evaluation of `Close_` on an open connection with an active session and
an exhausted read script: the CloseSession transaction times out, so the
device is reset, and the handle is closed. -/
theorem Close_empty_script (sid t : Nat) :
    Close_ (stdDev (some ⟨sid, t⟩)) [] =
      (⟨false, true, 512, 512, 16384, false, some ⟨sid, t + 1⟩⟩, [],
        [Action.reset, Action.closeConn]) := by
  simp [Close_, stdDev, runTransaction, assignIds, runTransBody, fetchPacket]

/-- Evaluation of `decodeRep` when the header declares more payload than was
received: the code and transaction id are already filled in, and the failure
is a plain error, not a `SyncError`. -/
theorem decodeRep_overrun (L code rtid : Nat) (rest : Bytes)
    (rep0 : Container) (hL : 12 + rest.length < L) :
    decodeRep ⟨L, 3, code, rtid⟩ rest rep0 =
      (⟨code, rep0.SessionID, rtid, rep0.Param⟩,
        some (.generic "header specified more bytes than have")) := by
  simp [decodeRep, USB_CONTAINER_RESPONSE, usbHdrLen, hL]

set_option maxHeartbeats 1000000 in
/-- Evaluation of `runTransaction` on a RESPONSE packet whose header
declares more payload bytes than follow it. -/
theorem runTransaction_overrun (sid t code rtid L : Nat) (rest : Bytes)
    (req0 : Container) (tail : List UsbResult)
    (hcode : code < 65536) (hrt : rtid < 4294967296)
    (hL : 12 + rest.length < L) (hLb : L < 4294967296)
    (hfitb : 12 + rest.length ≤ 512) :
    runTransaction (stdDev (some ⟨sid, t⟩)) req0 ⟨0, 0, 0, []⟩ false none 0
        (.ok (encodeHeader ⟨L, USB_CONTAINER_RESPONSE, code, rtid⟩ ++ rest)
          :: tail) =
      ⟨stdDev (some ⟨sid, t + 1⟩),
        { req0 with SessionID := sid, TransactionID := t },
        ⟨code, 0, rtid, []⟩, [],
        [sendReqBytes { req0 with SessionID := sid, TransactionID := t }],
        some (.generic "header specified more bytes than have"), tail⟩ := by
  have hfit : (encodeHeader ⟨L, USB_CONTAINER_RESPONSE, code, rtid⟩ ++
      rest).length ≤ (stdDev (some ⟨sid, t + 1⟩)).fetchPacketSize := by
    rw [List.length_append, encodeHeader_length, stdDev_fetchPacketSize]
    omega
  have hfetch := fetchPacket_wf (stdDev (some ⟨sid, t + 1⟩))
    ⟨L, USB_CONTAINER_RESPONSE, code, rtid⟩ rest tail hfit hLb
    (by simp [USB_CONTAINER_RESPONSE]) hcode hrt
  have hdec := decodeRep_overrun L code rtid rest ⟨0, 0, 0, []⟩ hL
  simp only [runTransaction, assignIds, stdDev_session,
    stdDev_update_session, runTransBody, hfetch]
  simp only [usbHdrLen, USB_CONTAINER_RESPONSE, USB_CONTAINER_DATA,
    finishRT, hdec, stdDev_session]
  simp [RTOut.mk.injEq, Container.mk.injEq]

/-! ## Claim theorems -/

/-- C8: for every request with `k ≤ 5` parameters (within the 16/32-bit field
widths), the bytes `sendReq` transmits are exactly `12 + 4k` long, their
header parses back little-endian with length field `12 + 4k`, type COMMAND,
and the request's code and transaction id, and the bytes after the header
are exactly the `k` parameter words in order. -/
theorem encoded_command_layout (req : Container) (hk : req.Param.length ≤ 5)
    (hc : req.Code < 65536) (ht : req.TransactionID < 4294967296)
    (hp : ∀ x ∈ req.Param, x < 4294967296) :
    (sendReqBytes req).length = 12 + 4 * req.Param.length ∧
    parseHeader (sendReqBytes req) =
      some (⟨12 + 4 * req.Param.length, USB_CONTAINER_COMMAND, req.Code,
        req.TransactionID⟩, (req.Param.map u32le).flatten) ∧
    readParams ((req.Param.map u32le).flatten) req.Param.length = req.Param := by
  refine ⟨?_, ?_, readParams_flatten _ hp⟩
  · unfold sendReqBytes
    rw [List.length_append, encodeHeader_length, flatten_u32le_length]
  · unfold sendReqBytes
    rw [parseHeader_encode]
    · simp [usbHdrLen]
    · simp only [usbHdrLen]; omega
    · simp [USB_CONTAINER_COMMAND]
    · exact hc
    · exact ht

/-- Witness for C8 at a concrete request. -/
theorem encoded_command_layout_witness :
    (sendReqBytes ⟨0x1001, 0, 7, [3, 4]⟩).length = 12 + 4 * 2 ∧
    parseHeader (sendReqBytes ⟨0x1001, 0, 7, [3, 4]⟩) =
      some (⟨12 + 4 * 2, USB_CONTAINER_COMMAND, 0x1001, 7⟩,
        (([3, 4] : List Nat).map u32le).flatten) ∧
    readParams ((([3, 4] : List Nat).map u32le).flatten) 2 = [3, 4] :=
  encoded_command_layout ⟨0x1001, 0, 7, [3, 4]⟩ (by decide) (by decide)
    (by decide) (by decide)

/-- C1: while a session is active, `runTransaction` stamps the request with
the session counter's current value and advances the counter exactly once,
on every path (including every failure path, since the counter is advanced
before anything can fail); a consecutive transaction on the resulting state
therefore carries transaction id `t + 1`. -/
theorem transactionId_monotone (d : Dev) (sid t : Nat)
    (hs : d.session = some ⟨sid, t⟩) (req rep : Container) (hasDest : Bool)
    (src : Option Bytes) (writeSize : Nat) (reads : List UsbResult)
    (req2 rep2 : Container) (hasDest2 : Bool) (src2 : Option Bytes)
    (writeSize2 : Nat) (reads2 : List UsbResult) :
    (runTransaction d req rep hasDest src writeSize reads).req.TransactionID
      = t ∧
    (runTransaction d req rep hasDest src writeSize reads).dev.session
      = some ⟨sid, t + 1⟩ ∧
    (runTransaction (runTransaction d req rep hasDest src writeSize
      reads).dev req2 rep2 hasDest2 src2 writeSize2 reads2).req.TransactionID
      = t + 1 := by
  simp [runTransaction, assignIds, hs]

/-- Witness for C1 at a concrete state. -/
theorem transactionId_monotone_witness :
    (runTransaction (stdDev (some ⟨3, 7⟩)) ⟨0x1001, 0, 0, []⟩ ⟨0, 0, 0, []⟩
      false none 0 []).req.TransactionID = 7 ∧
    (runTransaction (stdDev (some ⟨3, 7⟩)) ⟨0x1001, 0, 0, []⟩ ⟨0, 0, 0, []⟩
      false none 0 []).dev.session = some ⟨3, 7 + 1⟩ ∧
    (runTransaction (runTransaction (stdDev (some ⟨3, 7⟩)) ⟨0x1001, 0, 0, []⟩
      ⟨0, 0, 0, []⟩ false none 0 []).dev ⟨0x1002, 0, 0, []⟩ ⟨0, 0, 0, []⟩
      false none 0 []).req.TransactionID = 7 + 1 :=
  transactionId_monotone (stdDev (some ⟨3, 7⟩)) 3 7 rfl ⟨0x1001, 0, 0, []⟩
    ⟨0, 0, 0, []⟩ false none 0 [] ⟨0x1002, 0, 0, []⟩ ⟨0, 0, 0, []⟩ false none
    0 []

theorem bulkReadLoop_short (cfg : Dev) (chunk : Bytes) (rs : List UsbResult)
    (h2 : chunk.length < cfg.rwBufSize) :
    bulkReadLoop cfg (.ok chunk :: rs) = (chunk, chunk.length, none, rs) := by
  simp [bulkReadLoop, List.take_of_length_le (Nat.le_of_lt h2), h2]

theorem bulkRead_mult_extra (cfg : Dev) (chunk data : Bytes)
    (rs : List UsbResult) (h2 : chunk.length < cfg.rwBufSize)
    (hm : chunk.length % cfg.fetchPacketSize = 0)
    (hd : data.length ≤ cfg.rwBufSize) :
    bulkRead cfg (.ok chunk :: .ok data :: rs) = (chunk, data, none, rs) := by
  simp [bulkRead, bulkReadLoop_short cfg chunk _ h2, hm,
    List.take_of_length_le hd]

theorem decodeRep_len12 (code rtid : Nat) (body : Bytes) (rep0 : Container) :
    decodeRep ⟨12, 3, code, rtid⟩ body rep0 =
      (⟨code, rep0.SessionID, rtid, rep0.Param⟩,
        if code ≠ RC_OK then some (.rc code) else none) := by
  by_cases hc : code = RC_OK <;>
    simp [decodeRep, USB_CONTAINER_RESPONSE, usbHdrLen, readParams, hc]

set_option maxHeartbeats 1000000 in
/-- C2: in a data-in phase whose reads end on an exact multiple of the max
packet size, exactly one additional read is performed: the two scripts below
differ only in that extra read.  If it returns zero bytes it is taken as the
ack and the RESPONSE is fetched by a further read (first conjunct: all four
scripted reads are consumed); if it returns a non-empty packet, those bytes
are reused as the RESPONSE packet itself rather than discarded (second
conjunct: the three scripted reads are consumed and the response decoded
from the reused bytes).  Either way the transaction succeeds with the same
decoded response and sink contents. -/
theorem data_in_extra_read_behaviour (sid t : Nat) (ht : t < 4294967296)
    (payload chunk : Bytes) (hp : payload.length = 500)
    (hc : chunk.length = 512) :
    (runTransaction (stdDev (some ⟨sid, t⟩)) ⟨0x1009, 0, 0, []⟩ ⟨0, 0, 0, []⟩
        true none 0
        [.ok (dataPkt 0x1009 t payload), .ok chunk, .ok [],
          .ok (respPkt RC_OK t [])] =
      ⟨stdDev (some ⟨sid, t + 1⟩), ⟨0x1009, sid, t, []⟩,
        ⟨RC_OK, sid, t, []⟩, payload ++ chunk,
        [sendReqBytes ⟨0x1009, sid, t, []⟩], none, []⟩) ∧
    (runTransaction (stdDev (some ⟨sid, t⟩)) ⟨0x1009, 0, 0, []⟩ ⟨0, 0, 0, []⟩
        true none 0
        [.ok (dataPkt 0x1009 t payload), .ok chunk,
          .ok (respPkt RC_OK t [])] =
      ⟨stdDev (some ⟨sid, t + 1⟩), ⟨0x1009, sid, t, []⟩,
        ⟨RC_OK, sid, t, []⟩, payload ++ chunk,
        [sendReqBytes ⟨0x1009, sid, t, []⟩], none, []⟩) := by
  have hLb : usbHdrLen + payload.length < 4294967296 := by
    simp only [usbHdrLen]; omega
  have hfitD : (encodeHeader ⟨usbHdrLen + payload.length,
      USB_CONTAINER_DATA, 0x1009, t⟩ ++ payload).length
      ≤ (stdDev (some ⟨sid, t + 1⟩)).fetchPacketSize := by
    simp [encodeHeader_length, stdDev_fetchPacketSize, hp]
  have hfetchDA := fetchPacket_wf (stdDev (some ⟨sid, t + 1⟩))
    ⟨usbHdrLen + payload.length, USB_CONTAINER_DATA, 0x1009, t⟩ payload
    [.ok chunk, .ok [], .ok (respPkt RC_OK t [])]
    hfitD hLb (by norm_num [USB_CONTAINER_DATA]) (by norm_num) ht
  have hfetchDB := fetchPacket_wf (stdDev (some ⟨sid, t + 1⟩))
    ⟨usbHdrLen + payload.length, USB_CONTAINER_DATA, 0x1009, t⟩ payload
    [.ok chunk, .ok (respPkt RC_OK t [])]
    hfitD hLb (by norm_num [USB_CONTAINER_DATA]) (by norm_num) ht
  have hbulkA : bulkRead (stdDev (some ⟨sid, t + 1⟩))
      (.ok chunk :: .ok [] :: [.ok (respPkt RC_OK t [])]) =
      (chunk, [], none, [.ok (respPkt RC_OK t [])]) :=
    bulkRead_mult_extra _ chunk [] _ (by rw [hc, stdDev_rwBufSize]; omega)
      (by rw [hc, stdDev_fetchPacketSize]) (by simp)
  have hbulkB : bulkRead (stdDev (some ⟨sid, t + 1⟩))
      (.ok chunk :: .ok (respPkt RC_OK t []) :: []) =
      (chunk, respPkt RC_OK t [], none, []) :=
    bulkRead_mult_extra _ chunk _ _ (by rw [hc, stdDev_rwBufSize]; omega)
      (by rw [hc, stdDev_fetchPacketSize])
      (by simp [respPkt, encodeHeader_length, stdDev_rwBufSize])
  have hfetchR : fetchPacket (stdDev (some ⟨sid, t + 1⟩))
      [.ok (respPkt RC_OK t [])] =
      (.ok ((⟨12, 3, RC_OK, t⟩ : UsbBulkHeader), []), []) := by
    have h0 := fetchPacket_wf (stdDev (some ⟨sid, t + 1⟩))
      ⟨12, 3, RC_OK, t⟩ [] []
      (by simp [encodeHeader_length, stdDev_fetchPacketSize])
      (by norm_num) (by norm_num) (by norm_num [RC_OK]) ht
    simpa [respPkt, usbHdrLen, USB_CONTAINER_RESPONSE] using h0
  have hdecR : decodeRep ⟨12, 3, RC_OK, t⟩ [] ⟨0, 0, 0, []⟩ =
      ((⟨RC_OK, 0, t, []⟩ : Container), none) := by
    simpa using decodeRep_len12 RC_OK t [] ⟨0, 0, 0, []⟩
  have hdecB : decodeRep ⟨12, 3, RC_OK, t⟩ (respPkt RC_OK t [])
      ⟨0, 0, 0, []⟩ = ((⟨RC_OK, 0, t, []⟩ : Container), none) := by
    simpa using decodeRep_len12 RC_OK t (respPkt RC_OK t []) ⟨0, 0, 0, []⟩
  have hprefix : parseHeaderPrefix (respPkt RC_OK t []) =
      (⟨12, 3, RC_OK, t⟩ : UsbBulkHeader) := by
    unfold parseHeaderPrefix respPkt
    rw [show usbHdrLen + 4 * ([] : List Nat).length = 12 from rfl]
    rw [show ((([] : List Nat).map u32le).flatten : Bytes) = [] from rfl]
    rw [parseHeader_encode _ _ (by norm_num)
      (by norm_num [USB_CONTAINER_RESPONSE]) (by norm_num [RC_OK]) ht]
    simp [USB_CONTAINER_RESPONSE]
  have hlen12 : (respPkt RC_OK t []).length = 12 := by
    simp [respPkt, encodeHeader_length]
  constructor
  · simp only [runTransaction, assignIds, stdDev_session,
      stdDev_update_session, runTransBody, dataPkt, hfetchDA]
    simp only [USB_CONTAINER_DATA, stdDev_fetchPacketSize,
      stdDev_session, usbHdrLen, hp]
    norm_num
    simp only [hbulkA]
    simp [hfetchR, finishRT, hdecR]
  · simp only [runTransaction, assignIds, stdDev_session,
      stdDev_update_session, runTransBody, dataPkt, hfetchDB]
    simp only [USB_CONTAINER_DATA, stdDev_fetchPacketSize,
      stdDev_session, usbHdrLen, hp]
    norm_num
    simp only [hbulkB]
    simp [hlen12, hprefix, finishRT, hdecB]

/-- Witness for C2 at concrete payloads. -/
theorem data_in_extra_read_behaviour_witness :
    (runTransaction (stdDev (some ⟨9, 5⟩)) ⟨0x1009, 0, 0, []⟩ ⟨0, 0, 0, []⟩
        true none 0
        [.ok (dataPkt 0x1009 5 (List.replicate 500 7)),
          .ok (List.replicate 512 9), .ok [], .ok (respPkt RC_OK 5 [])] =
      ⟨stdDev (some ⟨9, 5 + 1⟩), ⟨0x1009, 9, 5, []⟩,
        ⟨RC_OK, 9, 5, []⟩, List.replicate 500 7 ++ List.replicate 512 9,
        [sendReqBytes ⟨0x1009, 9, 5, []⟩], none, []⟩) ∧
    (runTransaction (stdDev (some ⟨9, 5⟩)) ⟨0x1009, 0, 0, []⟩ ⟨0, 0, 0, []⟩
        true none 0
        [.ok (dataPkt 0x1009 5 (List.replicate 500 7)),
          .ok (List.replicate 512 9), .ok (respPkt RC_OK 5 [])] =
      ⟨stdDev (some ⟨9, 5 + 1⟩), ⟨0x1009, 9, 5, []⟩,
        ⟨RC_OK, 9, 5, []⟩, List.replicate 500 7 ++ List.replicate 512 9,
        [sendReqBytes ⟨0x1009, 9, 5, []⟩], none, []⟩) :=
  data_in_extra_read_behaviour 9 5 (by decide) (List.replicate 500 7)
    (List.replicate 512 9) (by rw [List.length_replicate])
    (by rw [List.length_replicate])

set_option maxHeartbeats 1000000 in
/-- C7: when the caller supplies no data sink but the device opens a data
phase, `runTransaction` drains the phase (all scripted reads are consumed:
a single short DATA packet in the first conjunct, a full DATA packet plus a
continuation chunk, null ack and response in the second), discards its bytes
(nothing reaches a sink) and returns the "unexpected data" `SyncError`
instead of silently succeeding. -/
theorem unexpected_data_drained (sid t : Nat) (ht : t < 4294967296)
    (payload payload2 chunk : Bytes) (hplen : payload.length ≤ 499)
    (hp2 : payload2.length = 500) (hc : chunk.length = 512) :
    (runTransaction (stdDev (some ⟨sid, t⟩)) ⟨0x1009, 0, 0, []⟩
        ⟨0, 0, 0, []⟩ false none 0
        [.ok (dataPkt 0x1009 t payload), .ok (respPkt RC_OK t [])] =
      ⟨stdDev (some ⟨sid, t + 1⟩), ⟨0x1009, sid, t, []⟩, ⟨RC_OK, 0, t, []⟩,
        [], [sendReqBytes ⟨0x1009, sid, t, []⟩],
        some (.sync "unexpected data for code"), []⟩) ∧
    (runTransaction (stdDev (some ⟨sid, t⟩)) ⟨0x1009, 0, 0, []⟩
        ⟨0, 0, 0, []⟩ false none 0
        [.ok (dataPkt 0x1009 t payload2), .ok chunk, .ok [],
          .ok (respPkt RC_OK t [])] =
      ⟨stdDev (some ⟨sid, t + 1⟩), ⟨0x1009, sid, t, []⟩, ⟨RC_OK, 0, t, []⟩,
        [], [sendReqBytes ⟨0x1009, sid, t, []⟩],
        some (.sync "unexpected data for code"), []⟩) := by
  have hLb : usbHdrLen + payload.length < 4294967296 := by
    simp only [usbHdrLen]; omega
  have hLb2 : usbHdrLen + payload2.length < 4294967296 := by
    simp only [usbHdrLen]; omega
  have hfit1 : (encodeHeader ⟨usbHdrLen + payload.length,
      USB_CONTAINER_DATA, 0x1009, t⟩ ++ payload).length
      ≤ (stdDev (some ⟨sid, t + 1⟩)).fetchPacketSize := by
    simp [encodeHeader_length, stdDev_fetchPacketSize]
    omega
  have hfit2 : (encodeHeader ⟨usbHdrLen + payload2.length,
      USB_CONTAINER_DATA, 0x1009, t⟩ ++ payload2).length
      ≤ (stdDev (some ⟨sid, t + 1⟩)).fetchPacketSize := by
    simp [encodeHeader_length, stdDev_fetchPacketSize, hp2]
  have hfetch1 := fetchPacket_wf (stdDev (some ⟨sid, t + 1⟩))
    ⟨usbHdrLen + payload.length, USB_CONTAINER_DATA, 0x1009, t⟩ payload
    [.ok (respPkt RC_OK t [])]
    hfit1 hLb (by norm_num [USB_CONTAINER_DATA]) (by norm_num) ht
  have hfetch2 := fetchPacket_wf (stdDev (some ⟨sid, t + 1⟩))
    ⟨usbHdrLen + payload2.length, USB_CONTAINER_DATA, 0x1009, t⟩ payload2
    [.ok chunk, .ok [], .ok (respPkt RC_OK t [])]
    hfit2 hLb2 (by norm_num [USB_CONTAINER_DATA]) (by norm_num) ht
  have hbulk : bulkRead (stdDev (some ⟨sid, t + 1⟩))
      (.ok chunk :: .ok [] :: [.ok (respPkt RC_OK t [])]) =
      (chunk, [], none, [.ok (respPkt RC_OK t [])]) :=
    bulkRead_mult_extra _ chunk [] _ (by rw [hc, stdDev_rwBufSize]; omega)
      (by rw [hc, stdDev_fetchPacketSize]) (by simp)
  have hfetchR : fetchPacket (stdDev (some ⟨sid, t + 1⟩))
      [.ok (respPkt RC_OK t [])] =
      (.ok ((⟨12, 3, RC_OK, t⟩ : UsbBulkHeader), []), []) := by
    have h0 := fetchPacket_wf (stdDev (some ⟨sid, t + 1⟩))
      ⟨12, 3, RC_OK, t⟩ [] []
      (by simp [encodeHeader_length, stdDev_fetchPacketSize])
      (by norm_num) (by norm_num) (by norm_num [RC_OK]) ht
    simpa [respPkt, usbHdrLen, USB_CONTAINER_RESPONSE] using h0
  have hdecR : decodeRep ⟨12, 3, RC_OK, t⟩ [] ⟨0, 0, 0, []⟩ =
      ((⟨RC_OK, 0, t, []⟩ : Container), none) := by
    simpa using decodeRep_len12 RC_OK t [] ⟨0, 0, 0, []⟩
  have hshort : ¬(payload.length + usbHdrLen =
      (stdDev (some ⟨sid, t + 1⟩)).fetchPacketSize) := by
    rw [stdDev_fetchPacketSize]
    simp only [usbHdrLen]
    omega
  constructor
  · simp only [runTransaction, assignIds, stdDev_session,
      stdDev_update_session, runTransBody, dataPkt, hfetch1]
    simp only [USB_CONTAINER_DATA, hshort]
    norm_num
    simp [hfetchR, finishRT, hdecR]
  · simp only [runTransaction, assignIds, stdDev_session,
      stdDev_update_session, runTransBody, dataPkt, hfetch2]
    simp only [USB_CONTAINER_DATA, stdDev_fetchPacketSize, usbHdrLen, hp2]
    norm_num
    simp only [hbulk]
    simp [hfetchR, finishRT, hdecR]

/-- Witness for C7 at concrete payloads. -/
theorem unexpected_data_drained_witness :
    (runTransaction (stdDev (some ⟨9, 5⟩)) ⟨0x1009, 0, 0, []⟩
        ⟨0, 0, 0, []⟩ false none 0
        [.ok (dataPkt 0x1009 5 [1, 2, 3]), .ok (respPkt RC_OK 5 [])] =
      ⟨stdDev (some ⟨9, 5 + 1⟩), ⟨0x1009, 9, 5, []⟩, ⟨RC_OK, 0, 5, []⟩,
        [], [sendReqBytes ⟨0x1009, 9, 5, []⟩],
        some (.sync "unexpected data for code"), []⟩) ∧
    (runTransaction (stdDev (some ⟨9, 5⟩)) ⟨0x1009, 0, 0, []⟩
        ⟨0, 0, 0, []⟩ false none 0
        [.ok (dataPkt 0x1009 5 (List.replicate 500 7)),
          .ok (List.replicate 512 9), .ok [], .ok (respPkt RC_OK 5 [])] =
      ⟨stdDev (some ⟨9, 5 + 1⟩), ⟨0x1009, 9, 5, []⟩, ⟨RC_OK, 0, 5, []⟩,
        [], [sendReqBytes ⟨0x1009, 9, 5, []⟩],
        some (.sync "unexpected data for code"), []⟩) :=
  unexpected_data_drained 9 5 (by decide) [1, 2, 3] (List.replicate 500 7)
    (List.replicate 512 9) (by simp) (by rw [List.length_replicate])
    (by rw [List.length_replicate])

theorem replicate_ne_nil (n b : Nat) (hn : n ≠ 0) :
    List.replicate n b ≠ [] := by
  intro h
  have hlen := congrArg List.length h
  rw [List.length_replicate] at hlen
  simp only [List.length_nil] at hlen
  exact hn hlen

set_option maxHeartbeats 1000000 in
theorem bulkWriteLoop_replicate (b s : Nat) :
    (bulkWriteLoop (stdDev none) (List.replicate s b) s).2.2 = none ∧
    (∀ x ∈ (bulkWriteLoop (stdDev none) (List.replicate s b) s).1, x ≠ []) ∧
    ((((bulkWriteLoop (stdDev none) (List.replicate s b) s).1.getLast?).map
        List.length).getD 0 =
      if s = 0 then 0 else if s % 16384 = 0 then 16384 else s % 16384) := by
  induction s using Nat.strong_induction_on with
  | _ s ih =>
    rcases Nat.eq_zero_or_pos s with rfl | hs
    · simp [bulkWriteLoop]
    · have hsne : ¬(s = 0) := by omega
      rw [bulkWriteLoop]
      simp only [stdDev_rwBufSize, List.length_replicate, if_neg hsne]
      have hcond : ¬(s = 0 ∨ min 16384 s = 0) := by omega
      rw [dif_neg hcond]
      have hmm : min (min 16384 s) s = min 16384 s := by omega
      rw [hmm]
      by_cases hle : s ≤ 16384
      · have hmin : min 16384 s = s := by omega
        rw [hmin]
        simp only [List.take_replicate, List.drop_replicate, min_self,
          Nat.sub_self]
        have hrec : bulkWriteLoop (stdDev none) (List.replicate 0 b) 0 =
            ([], 0, none) := by
          rw [bulkWriteLoop]
          simp
        rw [hrec]
        refine ⟨rfl, ?_, ?_⟩
        · intro x hx
          simp only [List.mem_singleton] at hx
          subst hx
          exact replicate_ne_nil s b hsne
        · simp only [List.getLast?, Option.map_some, List.length_replicate,
            Option.getD_some]
          by_cases hm : s % 16384 = 0 <;> simp [hm] <;> omega
      · have hmin : min 16384 s = 16384 := by omega
        rw [hmin]
        simp only [List.take_replicate, List.drop_replicate]
        have h16 : min 16384 s = 16384 := by omega
        rw [h16]
        obtain ⟨e2, mem2, last2⟩ := ih (s - 16384) (by omega)
        have hne2 : ¬(s - 16384 = 0) := by omega
        have hr1ne : (bulkWriteLoop (stdDev none)
            (List.replicate (s - 16384) b) (s - 16384)).1 ≠ [] := by
          intro hnil
          rw [hnil] at last2
          by_cases hm : (s - 16384) % 16384 = 0
          · simp [hm, hne2] at last2
          · simp [hm, hne2] at last2
            omega
        refine ⟨e2, ?_, ?_⟩
        · intro x hx
          rcases List.mem_cons.mp hx with rfl | hx2
          · exact replicate_ne_nil 16384 b (by omega)
          · exact mem2 x hx2
        · rcases List.exists_cons_of_ne_nil hr1ne with ⟨c, cs, hcs⟩
          rw [hcs, List.getLast?_cons_cons, ← hcs, last2]
          rw [if_neg hne2]
          by_cases hm : (s - 16384) % 16384 = 0
          · rw [if_pos hm, if_pos (show s % 16384 = 0 by omega)]
          · rw [if_neg hm, if_neg (show ¬(s % 16384 = 0) by omega)]
            omega

set_option maxHeartbeats 1000000 in
/-- C6 (amended): with the header packed into the first packet (the default,
`SeparateHeader` unset) and a full reader, `bulkWrite` transmits the extra
zero-length packet exactly when the final transfer of its chunk loop is an
exact multiple of the send packet size: that is, when the whole payload fits
into the first packet (`size ≤ 500`, final loop transfer length 0) or when
header plus payload (`size + 12`) is an exact multiple of the 512-byte
packet size.  A payload that is itself a packet-size multiple (e.g. 512)
ends in a short 12-byte transfer, so no zero-length packet is sent. -/
theorem zlp_sent_iff (size b code tid : Nat) :
    [] ∈ (bulkWrite (stdDev none) (List.replicate size b) size code tid).1 ↔
      (size ≤ 500 ∨ (size + 12) % 512 = 0) := by
  obtain ⟨he, hmem, hlast⟩ := bulkWriteLoop_replicate b (size - min 500 size)
  have hfirst : ∀ (h : UsbBulkHeader) (xs : Bytes),
      encodeHeader h ++ xs ≠ [] := by
    intro h xs
    simp [encodeHeader, u32le, u16le]
  unfold bulkWrite
  simp only [stdDev_separateHeader, stdDev_sendPacketSize, usbHdrLen,
    List.drop_replicate]
  norm_num
  rw [hlast]
  by_cases hsz : size ≤ 500
  · rw [if_pos (show (if size - 500 ⊓ size = 0 then 0
      else if (size - 500 ⊓ size) % 16384 = 0 then 16384
      else (size - 500 ⊓ size) % 16384) % 512 = 0 by
        rw [if_pos (show size - 500 ⊓ size = 0 by omega)])]
    constructor
    · intro _
      exact Or.inl hsz
    · intro _
      exact List.mem_cons_of_mem _
        (List.mem_append_right _ (List.mem_singleton.mpr rfl))
  · have hmin : (500 : Nat) ⊓ size = 500 := by omega
    rw [hmin] at hmem ⊢
    have hne0 : ¬(size - 500 = 0) := by omega
    rw [if_neg hne0]
    by_cases hz : (size + 12) % 512 = 0
    · have hv : (if (size - 500) % 16384 = 0 then 16384
          else (size - 500) % 16384) % 512 = 0 := by
        by_cases hm : (size - 500) % 16384 = 0
        · rw [if_pos hm]
        · rw [if_neg hm]
          omega
      rw [if_pos hv]
      constructor
      · intro _
        exact Or.inr hz
      · intro _
        exact List.mem_cons_of_mem _
          (List.mem_append_right _ (List.mem_singleton.mpr rfl))
    · have hv : ¬((if (size - 500) % 16384 = 0 then 16384
          else (size - 500) % 16384) % 512 = 0) := by
        by_cases hm : (size - 500) % 16384 = 0
        · exact absurd (show (size + 12) % 512 = 0 by omega) hz
        · rw [if_neg hm]
          omega
      rw [if_neg hv]
      simp only [List.mem_cons]
      constructor
      · rintro (h1 | h2)
        · exact absurd h1.symm (hfirst _ _)
        · exact absurd rfl (hmem [] h2)
      · rintro (h | h)
        · exact absurd h hsz
        · exact absurd h hz

theorem zlp_cx_loop0 : bulkWriteLoop (stdDev none) ([] : Bytes) 0 =
    ([], 0, none) := by
  rw [bulkWriteLoop]
  norm_num

theorem zlp_cx_loop12 : bulkWriteLoop (stdDev none) (List.replicate 12 7) 12 =
    ([List.replicate 12 7], 12, none) := by
  rw [bulkWriteLoop]
  norm_num [stdDev_rwBufSize, List.take_replicate, List.drop_replicate,
    zlp_cx_loop0]

/-- C6 counterexample: the claim's own example — a 512-byte payload with
512-byte max packets — produces exactly two transfers (one full 512-byte
packet carrying the header and the first 500 payload bytes, then the 12
remaining bytes as a naturally short packet) and *no* zero-length packet,
contradicting the claim that every packet-size-multiple payload is followed
by one. -/
theorem zlp_payload_512_counterexample :
    ((bulkWrite (stdDev none) (List.replicate 512 7) 512 0x100C 1).1.map
      List.length = [512, 12]) ∧
    [] ∉ (bulkWrite (stdDev none) (List.replicate 512 7) 512 0x100C 1).1 := by
  unfold bulkWrite
  norm_num [stdDev_separateHeader, stdDev_sendPacketSize, usbHdrLen,
    List.take_replicate, List.drop_replicate, zlp_cx_loop12,
    encodeHeader_length, List.length_replicate]

/-- C9: when the first OpenSession is answered with "session already
opened", `Configure` issues CloseSession and retries OpenSession; when the
retry succeeds it returns success having performed no device reset, no
connection close and no backoff sleep (the action trace is empty), leaving
a fresh session installed.  The connection is already open, so the result
holds for every descriptor environment. -/
theorem configure_already_open_recovery (env : OpenEnv) :
    Configure env (stdDev none)
      [.ok (respPkt RC_SessionAlreadyOpened 0 []), .ok (respPkt RC_OK 0 []),
        .ok (respPkt RC_OK 0 [])] =
      ⟨stdDev (some ⟨1, 1⟩), [], [], none⟩ := by
  have h1 : OpenSession (stdDev none)
      [.ok (respPkt RC_SessionAlreadyOpened 0 []), .ok (respPkt RC_OK 0 []),
        .ok (respPkt RC_OK 0 [])] =
      ⟨stdDev none, [.ok (respPkt RC_OK 0 []), .ok (respPkt RC_OK 0 [])],
        [], some (.rc RC_SessionAlreadyOpened)⟩ := by decide
  have h2 : CloseSession (stdDev none)
      [.ok (respPkt RC_OK 0 []), .ok (respPkt RC_OK 0 [])] =
      ⟨stdDev none, [.ok (respPkt RC_OK 0 [])], [], none⟩ := by decide
  have h3 : OpenSession (stdDev none) [.ok (respPkt RC_OK 0 [])] =
      ⟨stdDev (some ⟨1, 1⟩), [], [], none⟩ := by decide
  simp [Configure, stdDev_hOpen, h1, h2, h3]

/-- C3 counterexample: a response whose transaction id (77) differs from the
request's (5) but whose code is not OK is returned as the device-response
error `RCError 0x2019`, which is not classified fatal — the connection is
not closed.  So, as stated (for *every* mismatched response), the claim
fails: the mismatch does not always produce a desync error with teardown. -/
theorem tid_mismatch_as_stated_counterexample :
    RunTransaction (stdDev (some ⟨9, 5⟩)) ⟨0x1001, 0, 0, []⟩ ⟨0, 0, 0, []⟩
        false none 0 [.ok (respPkt 0x2019 77 [])] =
      ⟨stdDev (some ⟨9, 6⟩), ⟨0x1001, 9, 5, []⟩, ⟨0x2019, 0, 77, []⟩, [],
        [sendReqBytes ⟨0x1001, 9, 5, []⟩], some (.rc 0x2019), [], false,
        []⟩ ∧
    isFatalErr (some (.rc 0x2019)) = false := by decide

set_option maxHeartbeats 1000000 in
/-- C3 (amended): while a session is active, if the decoded response carries
the generic OK code and its transaction id differs from the request's,
`runTransaction` returns the "transaction ID mismatch" `SyncError` and the
`RunTransaction` wrapper closes the connection before returning (resetting
the device when the implicit CloseSession transaction also fails). -/
theorem tid_mismatch_desync_teardown (sid t rtid : Nat) (req0 : Container)
    (hne : rtid ≠ t) (hrt : rtid < 4294967296) :
    RunTransaction (stdDev (some ⟨sid, t⟩)) req0 ⟨0, 0, 0, []⟩ false none 0
        [.ok (respPkt RC_OK rtid [])] =
      ⟨⟨false, true, 512, 512, 16384, false, some ⟨sid, t + 1 + 1⟩⟩,
        { req0 with SessionID := sid, TransactionID := t },
        ⟨RC_OK, 0, rtid, []⟩, [],
        [sendReqBytes { req0 with SessionID := sid, TransactionID := t }],
        some (.sync "transaction ID mismatch"), [], true,
        [Action.reset, Action.closeConn]⟩ := by
  have hrun := runTransaction_response sid t RC_OK rtid [] req0 false []
    (by decide) (by decide) hrt (by simp)
  simp [hne] at hrun
  have hclose := Close_empty_script sid (t + 1)
  have hfat : isFatalErr (some (Err.sync "transaction ID mismatch")) = true :=
    rfl
  simp only [RunTransaction, stdDev_hOpen, hrun, hfat, hclose]
  simp

/-- Witness for the amended C3. -/
theorem tid_mismatch_desync_teardown_witness :
    RunTransaction (stdDev (some ⟨9, 5⟩)) ⟨0x1001, 0, 0, []⟩ ⟨0, 0, 0, []⟩
        false none 0 [.ok (respPkt RC_OK 77 [])] =
      ⟨⟨false, true, 512, 512, 16384, false, some ⟨9, 5 + 1 + 1⟩⟩,
        ⟨0x1001, 9, 5, []⟩,
        ⟨RC_OK, 0, 77, []⟩, [],
        [sendReqBytes ⟨0x1001, 9, 5, []⟩],
        some (.sync "transaction ID mismatch"), [], true,
        [Action.reset, Action.closeConn]⟩ :=
  tid_mismatch_desync_teardown 9 5 77 ⟨0x1001, 0, 0, []⟩ (by decide)
    (by decide)

/-- C4: a valid RESPONSE whose code is not the generic OK code still
populates the response container (code, transaction id, parameters), the
call returns the `RCError` carrying that code, and no teardown happens: the
connection stays open and the session survives with its counter advanced,
ready for the next transaction. -/
theorem device_response_error_keeps_session (sid t code rtid : Nat)
    (ps : List Nat) (req0 : Container) (hcode : code < 65536)
    (hrc : code ≠ RC_OK) (hrt : rtid < 4294967296) (hk : ps.length ≤ 5)
    (hp : ∀ x ∈ ps, x < 4294967296) :
    RunTransaction (stdDev (some ⟨sid, t⟩)) req0 ⟨0, 0, 0, []⟩ false none 0
        [.ok (respPkt code rtid ps)] =
      ⟨stdDev (some ⟨sid, t + 1⟩),
        { req0 with SessionID := sid, TransactionID := t },
        ⟨code, 0, rtid, ps⟩, [],
        [sendReqBytes { req0 with SessionID := sid, TransactionID := t }],
        some (.rc code), [], false, []⟩ := by
  have hrun := runTransaction_response sid t code rtid ps req0 false []
    hk hcode hrt hp
  simp [hrc] at hrun
  have hfat : isFatalErr (some (Err.rc code)) = false := rfl
  simp only [RunTransaction, stdDev_hOpen, hrun, hfat]
  simp

/-- Witness for C4. -/
theorem device_response_error_keeps_session_witness :
    RunTransaction (stdDev (some ⟨9, 5⟩)) ⟨0x1001, 0, 0, []⟩ ⟨0, 0, 0, []⟩
        false none 0 [.ok (respPkt 0x2019 5 [171, 205])] =
      ⟨stdDev (some ⟨9, 5 + 1⟩),
        ⟨0x1001, 9, 5, []⟩,
        ⟨0x2019, 0, 5, [171, 205]⟩, [],
        [sendReqBytes ⟨0x1001, 9, 5, []⟩],
        some (.rc 0x2019), [], false, []⟩ :=
  device_response_error_keeps_session 9 5 0x2019 5 [171, 205]
    ⟨0x1001, 0, 0, []⟩ (by decide) (by decide) (by decide) (by decide)
    (by decide)

/-- C5 counterexample: a RESPONSE packet declaring 24 bytes while only 4
payload bytes follow makes `decodeRep` fail with a *plain* error (not a
`SyncError`), which `RunTransaction` does not treat as fatal: the connection
stays open.  So the claim's "classified as a protocol desync and torn down"
is false on the code. -/
theorem declared_length_overrun_counterexample :
    RunTransaction (stdDev (some ⟨9, 5⟩)) ⟨0x1001, 0, 0, []⟩ ⟨0, 0, 0, []⟩
        false none 0
        [.ok (encodeHeader ⟨24, 3, 0x2001, 5⟩ ++ [1, 2, 3, 4])] =
      ⟨stdDev (some ⟨9, 6⟩), ⟨0x1001, 9, 5, []⟩, ⟨0x2001, 0, 5, []⟩, [],
        [sendReqBytes ⟨0x1001, 9, 5, []⟩],
        some (.generic "header specified more bytes than have"), [], false,
        []⟩ ∧
    isFatalErr (some (.generic "header specified more bytes than have")) =
      false := by decide

/-- C5 (amended): when a RESPONSE header declares more payload bytes than
were received, decoding fails — but with a plain error that is *not*
classified as a protocol desync, so `RunTransaction` does not tear the
connection down: it stays open and the session survives. -/
theorem declared_length_overrun_plain_error (sid t code rtid L : Nat)
    (rest : Bytes) (req0 : Container) (hcode : code < 65536)
    (hrt : rtid < 4294967296) (hL : 12 + rest.length < L)
    (hLb : L < 4294967296) (hfitb : 12 + rest.length ≤ 512) :
    RunTransaction (stdDev (some ⟨sid, t⟩)) req0 ⟨0, 0, 0, []⟩ false none 0
        [.ok (encodeHeader ⟨L, USB_CONTAINER_RESPONSE, code, rtid⟩ ++
          rest)] =
      ⟨stdDev (some ⟨sid, t + 1⟩),
        { req0 with SessionID := sid, TransactionID := t },
        ⟨code, 0, rtid, []⟩, [],
        [sendReqBytes { req0 with SessionID := sid, TransactionID := t }],
        some (.generic "header specified more bytes than have"), [], false,
        []⟩ := by
  have hrun := runTransaction_overrun sid t code rtid L rest req0 []
    hcode hrt hL hLb hfitb
  have hfat : isFatalErr (some (Err.generic
    "header specified more bytes than have")) = false := rfl
  simp only [RunTransaction, stdDev_hOpen, hrun, hfat]
  simp

/-- Witness for the amended C5. -/
theorem declared_length_overrun_plain_error_witness :
    RunTransaction (stdDev (some ⟨9, 5⟩)) ⟨0x1001, 0, 0, []⟩ ⟨0, 0, 0, []⟩
        false none 0
        [.ok (encodeHeader ⟨24, USB_CONTAINER_RESPONSE, 0x2001, 5⟩ ++
          [1, 2, 3, 4])] =
      ⟨stdDev (some ⟨9, 5 + 1⟩),
        ⟨0x1001, 9, 5, []⟩,
        ⟨0x2001, 0, 5, []⟩, [],
        [sendReqBytes ⟨0x1001, 9, 5, []⟩],
        some (.generic "header specified more bytes than have"), [], false,
        []⟩ :=
  declared_length_overrun_plain_error 9 5 0x2001 5 24 [1, 2, 3, 4]
    ⟨0x1001, 0, 0, []⟩ (by decide) (by decide) (by decide) (by decide)
    (by decide)

/-- C10: when the response code is not OK, `runTransaction` returns the
device-response error *before* the transaction-id correlation check: even
with a mismatched transaction id the result is the `RCError` (not a desync
error), no teardown happens, and the session survives. -/
theorem rc_error_precedes_tid_check (sid t code rtid : Nat) (ps : List Nat)
    (req0 : Container) (hcode : code < 65536) (hrc : code ≠ RC_OK)
    (hne : rtid ≠ t) (hrt : rtid < 4294967296) (hk : ps.length ≤ 5)
    (hp : ∀ x ∈ ps, x < 4294967296) :
    RunTransaction (stdDev (some ⟨sid, t⟩)) req0 ⟨0, 0, 0, []⟩ false none 0
        [.ok (respPkt code rtid ps)] =
      ⟨stdDev (some ⟨sid, t + 1⟩),
        { req0 with SessionID := sid, TransactionID := t },
        ⟨code, 0, rtid, ps⟩, [],
        [sendReqBytes { req0 with SessionID := sid, TransactionID := t }],
        some (.rc code), [], false, []⟩ ∧
    isFatalErr (some (.rc code)) = false := by
  refine ⟨?_, rfl⟩
  have hrun := runTransaction_response sid t code rtid ps req0 false []
    hk hcode hrt hp
  simp [hrc] at hrun
  have hfat : isFatalErr (some (Err.rc code)) = false := rfl
  simp only [RunTransaction, stdDev_hOpen, hrun, hfat]
  simp

/-- Witness for C10. -/
theorem rc_error_precedes_tid_check_witness :
    (RunTransaction (stdDev (some ⟨9, 5⟩)) ⟨0x1001, 0, 0, []⟩ ⟨0, 0, 0, []⟩
        false none 0 [.ok (respPkt 0x2019 77 [])] =
      ⟨stdDev (some ⟨9, 5 + 1⟩),
        ⟨0x1001, 9, 5, []⟩,
        ⟨0x2019, 0, 77, []⟩, [],
        [sendReqBytes ⟨0x1001, 9, 5, []⟩],
        some (.rc 0x2019), [], false, []⟩) ∧
    isFatalErr (some (.rc 0x2019)) = false :=
  rc_error_precedes_tid_check 9 5 0x2019 77 [] ⟨0x1001, 0, 0, []⟩
    (by decide) (by decide) (by decide) (by decide) (by decide) (by decide)

end Mtp
